import Mathlib

/-
Verification of the Luminary chat-platform client (src/DiscordClient.py).

The Python client is a thin request/response mapping layer: every operation
performs one HTTP round trip and either returns a decoded value or raises an
exception.  We embed the response-handling half of each operation as a pure
Lean function taking the HTTP `Response` the server sent back; the
request-building half (the URL the operation issues) is embedded as a separate
pure function on the call's arguments.  Python exceptions become the `error`
branch of `Except`, carrying a `PyErr` value that records the exception class
and its message.  `DiscordClient.connect` is the only operation that mutates
the client, so it is embedded in state-passing style, returning the result
together with the post-state.
-/

set_option autoImplicit false

namespace Luminary

/-- A parsed JSON value, the result of `await response.json()` in the source.
`num` covers the integral numbers the claims exercise. -/
inductive Json where
  | null : Json
  | bool : Bool → Json
  | num : Int → Json
  | str : String → Json
  | arr : List Json → Json
  | obj : List (String × Json) → Json

/-- A Python exception as raised by the client: the exception class together
with its payload (message or offending key). -/
inductive PyErr where
  | valueError : String → PyErr
  | keyError : String → PyErr
  | typeError : String → PyErr
  | jsonDecodeError : PyErr
  deriving DecidableEq

/-- The exception class name: this is what a Python `except SomeError:` clause
can distinguish. -/
def PyErr.kind : PyErr → String
  | .valueError _ => "ValueError"
  | .keyError _ => "KeyError"
  | .typeError _ => "TypeError"
  | .jsonDecodeError => "JSONDecodeError"

/-- `true` exactly when the computation completed without raising. -/
def exceptOk {ε α : Type} : Except ε α → Bool
  | .ok _ => true
  | .error _ => false

/-- An HTTP response as the client observes it: the status code, and the body
as a parsed JSON value when the body parses (`none` models a body on which
`response.json()` raises). -/
structure Response where
  status : Nat
  body : Option Json

/-- `await response.json()`: yields the parsed body or raises a decode error. -/
def Response.json (r : Response) : Except PyErr Json :=
  match r.body with
  | some j => .ok j
  | none => .error .jsonDecodeError

/-- Python subscription `data[key]` on a parsed JSON value: a `KeyError` when
the object lacks the key, a `TypeError` when the value is not an object. -/
def Json.getField : Json → String → Except PyErr Json
  | .obj fields, key =>
    match fields.lookup key with
    | some v => .ok v
    | none => .error (.keyError key)
  | _, _ => .error (.typeError "value is not subscriptable by a string key")

/-- Python iteration `for x in data` over a parsed JSON value: lists yield
their elements, strings their characters, objects their keys; other values
raise `TypeError`. -/
def Json.toIter : Json → Except PyErr (List Json)
  | .arr xs => .ok xs
  | .str s => .ok (s.data.map (fun ch => Json.str (String.mk [ch])))
  | .obj fields => .ok (fields.map (fun kv => Json.str kv.1))
  | _ => .error (.typeError "value is not iterable")

/-- `class Message` (src lines 77-81): id, content, author display name. -/
structure Message where
  id : Json
  content : Json
  author : Json

/-- `class User` (src lines 84-89). -/
structure User where
  id : Json
  username : Json
  discriminator : Json
  avatar : Json

/-- `class Channel` (src lines 92-96). -/
structure Channel where
  id : Json
  name : Json
  channel_type : Json

/-- The client's mutable state: the base API URL set by `__init__` and the
gateway URL attribute, absent (`none`) until a successful `connect` sets it. -/
structure DiscordClient where
  api_url : String
  gateway_url : Option Json

/-- `DiscordClient.__init__(api_url)` (src lines 6-8): stores the base URL;
the `gateway_url` attribute does not exist yet. -/
def DiscordClient.init (api_url : String) : DiscordClient :=
  { api_url := api_url, gateway_url := none }

/-- `connect` (src lines 10-16), embedded in state-passing style: on status
200 it parses the body, reads `data["url"]` and stores it in `gateway_url`;
on any other status it raises `ValueError` and leaves the state untouched.
A parse or key failure on the 200 path also raises before the assignment. -/
def DiscordClient.connect (c : DiscordClient) (r : Response) :
    Except PyErr Unit × DiscordClient :=
  if r.status = 200 then
    match r.json with
    | .error e => (.error e, c)
    | .ok data =>
      match data.getField "url" with
      | .error e => (.error e, c)
      | .ok url => (.ok (), { c with gateway_url := some url })
  else
    (.error (.valueError ("Failed to connect to Discord: " ++ toString r.status)), c)

/-- `send_message` (src lines 18-26): `True` on status 200, else raises. -/
def DiscordClient.send_message (_c : DiscordClient) (r : Response) : Except PyErr Bool :=
  if r.status = 200 then .ok true
  else .error (.valueError ("Failed to send message: " ++ toString r.status))

/-- Decoding one message object, as on src lines 34, 113 and 131:
`Message(data["id"], data["content"], data["author"]["username"])`,
arguments evaluated left to right, any failure raising before the
`Message` is constructed. -/
def decodeMessage (data : Json) : Except PyErr Message :=
  match data.getField "id" with
  | .error e => .error e
  | .ok i =>
    match data.getField "content" with
    | .error e => .error e
    | .ok content =>
      match data.getField "author" with
      | .error e => .error e
      | .ok author =>
        match author.getField "username" with
        | .error e => .error e
        | .ok username => .ok ⟨i, content, username⟩

/-- `receive_message` (src lines 28-36): on 200 decodes a single message
object from the body; otherwise raises. -/
def DiscordClient.receive_message (_c : DiscordClient) (r : Response) : Except PyErr Message :=
  if r.status = 200 then
    match r.json with
    | .error e => .error e
    | .ok data => decodeMessage data
  else .error (.valueError ("Failed to receive message: " ++ toString r.status))

/-- `edit_message` (src lines 38-46): `True` on status 200, else raises. -/
def DiscordClient.edit_message (_c : DiscordClient) (r : Response) : Except PyErr Bool :=
  if r.status = 200 then .ok true
  else .error (.valueError ("Failed to edit message: " ++ toString r.status))

/-- `delete_message` (src lines 48-55): `True` on status 204, else raises. -/
def DiscordClient.delete_message (_c : DiscordClient) (r : Response) : Except PyErr Bool :=
  if r.status = 204 then .ok true
  else .error (.valueError ("Failed to delete message: " ++ toString r.status))

/-- Decoding one user object, as on src lines 61 and 148:
`User(data["id"], data["username"], data["discriminator"], data["avatar"])`. -/
def decodeUser (data : Json) : Except PyErr User :=
  match data.getField "id" with
  | .error e => .error e
  | .ok i =>
    match data.getField "username" with
    | .error e => .error e
    | .ok username =>
      match data.getField "discriminator" with
      | .error e => .error e
      | .ok discriminator =>
        match data.getField "avatar" with
        | .error e => .error e
        | .ok avatar => .ok ⟨i, username, discriminator, avatar⟩

/-- `get_user_info` (src lines 57-63): on 200 decodes a User; else raises. -/
def DiscordClient.get_user_info (_c : DiscordClient) (r : Response) : Except PyErr User :=
  if r.status = 200 then
    match r.json with
    | .error e => .error e
    | .ok data => decodeUser data
  else .error (.valueError ("Failed to get user info: " ++ toString r.status))

/-- Decoding one channel object, as on src lines 69 and 167:
`Channel(data["id"], data["name"], data["type"])`. -/
def decodeChannel (data : Json) : Except PyErr Channel :=
  match data.getField "id" with
  | .error e => .error e
  | .ok i =>
    match data.getField "name" with
    | .error e => .error e
    | .ok name =>
      match data.getField "type" with
      | .error e => .error e
      | .ok ty => .ok ⟨i, name, ty⟩

/-- `get_channel_info` (src lines 65-71): on 200 decodes a Channel; else raises. -/
def DiscordClient.get_channel_info (_c : DiscordClient) (r : Response) : Except PyErr Channel :=
  if r.status = 200 then
    match r.json with
    | .error e => .error e
    | .ok data => decodeChannel data
  else .error (.valueError ("Failed to get channel info: " ++ toString r.status))

/-- A Python list comprehension `[f(x) for x in items]` where `f` may raise:
elements are produced left to right and the first failure aborts the whole
comprehension, so no partial list escapes. -/
def listComp {α : Type} (f : Json → Except PyErr α) : List Json → Except PyErr (List α)
  | [] => .ok []
  | x :: xs =>
    match f x with
    | .error e => .error e
    | .ok y =>
      match listComp f xs with
      | .error e => .error e
      | .ok ys => .ok (y :: ys)

/-- The URL `fetch_channel_messages` requests (src line 109):
`{api_url}/channels/{channel_id}/messages?limit={limit}`, the limit
interpolated verbatim, defaulting to 10. -/
def fetch_channel_messages_url (client : DiscordClient) (channel_id : String)
    (limit : Int := 10) : String :=
  client.api_url ++ "/channels/" ++ channel_id ++ "/messages?limit=" ++ toString limit

/-- `fetch_channel_messages` response handling (src lines 99-115): on 200,
iterates the parsed body and decodes each element as a Message; else raises. -/
def fetch_channel_messages (_client : DiscordClient) (r : Response) :
    Except PyErr (List Message) :=
  if r.status = 200 then
    match r.json with
    | .error e => .error e
    | .ok data =>
      match data.toIter with
      | .error e => .error e
      | .ok items => listComp decodeMessage items
  else .error (.valueError ("Failed to fetch channel messages: " ++ toString r.status))

/-- The URL `get_user_messages` requests (src line 127):
`{api_url}/users/{user_id}/messages?limit={limit}`, the limit interpolated
verbatim, defaulting to 10. -/
def get_user_messages_url (client : DiscordClient) (user_id : String)
    (limit : Int := 10) : String :=
  client.api_url ++ "/users/" ++ user_id ++ "/messages?limit=" ++ toString limit

/-- `get_user_messages` response handling (src lines 117-133): same decoding
as `fetch_channel_messages`, with its own error message. -/
def get_user_messages (_client : DiscordClient) (r : Response) :
    Except PyErr (List Message) :=
  if r.status = 200 then
    match r.json with
    | .error e => .error e
    | .ok data =>
      match data.toIter with
      | .error e => .error e
      | .ok items => listComp decodeMessage items
  else .error (.valueError ("Failed to fetch user messages: " ++ toString r.status))

/-- `get_user_friends` (src lines 135-150): on 200, decodes each element of
the parsed body as a User; else raises. -/
def get_user_friends (_client : DiscordClient) (r : Response) :
    Except PyErr (List User) :=
  if r.status = 200 then
    match r.json with
    | .error e => .error e
    | .ok data =>
      match data.toIter with
      | .error e => .error e
      | .ok items => listComp decodeUser items
  else .error (.valueError ("Failed to fetch user friends: " ++ toString r.status))

/-- `create_channel` (src lines 152-169): on 201 decodes the created Channel
from the body; any other status raises. -/
def create_channel (_client : DiscordClient) (r : Response) :
    Except PyErr Channel :=
  if r.status = 201 then
    match r.json with
    | .error e => .error e
    | .ok data => decodeChannel data
  else .error (.valueError ("Failed to create channel: " ++ toString r.status))

/-- The operation-specific error message heads, in source order: every
failure path raises `ValueError(head ++ str(status))`. -/
def opErrMsgHeads : List String :=
  ["Failed to connect to Discord: ", "Failed to send message: ",
   "Failed to receive message: ", "Failed to edit message: ",
   "Failed to delete message: ", "Failed to get user info: ",
   "Failed to get channel info: ", "Failed to fetch channel messages: ",
   "Failed to fetch user messages: ", "Failed to fetch user friends: ",
   "Failed to create channel: "]

/-- The eleven error messages the client can raise for a given status. -/
def opErrMsgs (s : Nat) : List String :=
  opErrMsgHeads.map (fun p => p ++ toString s)

/-! ## Claims -/

/-- Appending the same string on the right is cancellative. -/
theorem string_append_right_cancel {a b t : String} (h : a ++ t = b ++ t) : a = b := by
  have hd : a.data ++ t.data = b.data ++ t.data := by
    simpa using congrArg String.data h
  have hab : a.data = b.data := List.append_cancel_right hd
  cases a
  cases b
  exact congrArg String.mk hab

/-- The eleven operation error messages are pairwise distinct at every status:
the caller can tell which operation failed from the message text. -/
theorem opErrMsgs_nodup (s : Nat) : (opErrMsgs s).Nodup := by
  have hinj : Function.Injective (fun p : String => p ++ toString s) :=
    fun a b h => string_append_right_cancel h
  exact List.Nodup.map hinj (by decide)

/-- Claim C1: for every operation of the client and every response whose
status code is not the documented success status for that operation (200 for
all but `delete_message`, which succeeds on 204, and `create_channel`, which
succeeds on 201), the operation fails and returns no value at all — in
particular no partially constructed Message, User, or Channel record is
ever returned. -/
theorem C1_nonsuccess_status_fails :
    (∀ (c : DiscordClient) (r : Response), r.status ≠ 200 →
        exceptOk (DiscordClient.connect c r).1 = false
      ∧ exceptOk (DiscordClient.send_message c r) = false
      ∧ exceptOk (DiscordClient.receive_message c r) = false
      ∧ exceptOk (DiscordClient.edit_message c r) = false
      ∧ exceptOk (DiscordClient.get_user_info c r) = false
      ∧ exceptOk (DiscordClient.get_channel_info c r) = false
      ∧ exceptOk (fetch_channel_messages c r) = false
      ∧ exceptOk (get_user_messages c r) = false
      ∧ exceptOk (get_user_friends c r) = false)
  ∧ (∀ (c : DiscordClient) (r : Response), r.status ≠ 204 →
      exceptOk (DiscordClient.delete_message c r) = false)
  ∧ (∀ (c : DiscordClient) (r : Response), r.status ≠ 201 →
      exceptOk (create_channel c r) = false) := by
  refine ⟨fun c r h => ?_, fun c r h => ?_, fun c r h => ?_⟩
  · simp [DiscordClient.connect, DiscordClient.send_message,
      DiscordClient.receive_message, DiscordClient.edit_message,
      DiscordClient.get_user_info, DiscordClient.get_channel_info,
      fetch_channel_messages, get_user_messages, get_user_friends,
      exceptOk, h]
  · simp [DiscordClient.delete_message, exceptOk, h]
  · simp [create_channel, exceptOk, h]

/-- Witness for C1 at status 404 (not a success status for any operation). -/
theorem C1_nonsuccess_status_fails_witness :
    exceptOk (DiscordClient.connect (DiscordClient.init "http://api") ⟨404, none⟩).1 = false
  ∧ exceptOk (DiscordClient.delete_message (DiscordClient.init "http://api") ⟨404, none⟩) = false
  ∧ exceptOk (create_channel (DiscordClient.init "http://api") ⟨404, none⟩) = false :=
  ⟨(C1_nonsuccess_status_fails.1 (DiscordClient.init "http://api") ⟨404, none⟩ (by decide)).1,
   C1_nonsuccess_status_fails.2.1 (DiscordClient.init "http://api") ⟨404, none⟩ (by decide),
   C1_nonsuccess_status_fails.2.2 (DiscordClient.init "http://api") ⟨404, none⟩ (by decide)⟩

/-- Claim C2: `delete_message` succeeds if and only if the response status is
204; any other status — including 200 — fails, while `send_message` and
`edit_message` succeed on 200. -/
theorem C2_delete_succeeds_only_on_204 :
    (∀ (c : DiscordClient) (r : Response),
        exceptOk (DiscordClient.delete_message c r) = true ↔ r.status = 204)
  ∧ (∀ (c : DiscordClient) (r : Response), r.status = 200 →
        exceptOk (DiscordClient.delete_message c r) = false
      ∧ DiscordClient.send_message c r = .ok true
      ∧ DiscordClient.edit_message c r = .ok true) := by
  constructor
  · intro c r
    by_cases h : r.status = 204 <;> simp [DiscordClient.delete_message, exceptOk, h]
  · intro c r h
    simp [DiscordClient.delete_message, DiscordClient.send_message,
      DiscordClient.edit_message, exceptOk, h]

/-- Witness for C2: a 200 response makes `delete_message` fail while
`send_message` and `edit_message` succeed. -/
theorem C2_delete_succeeds_only_on_204_witness :
    exceptOk (DiscordClient.delete_message (DiscordClient.init "http://api") ⟨200, none⟩) = false
  ∧ DiscordClient.send_message (DiscordClient.init "http://api") ⟨200, none⟩ = .ok true
  ∧ DiscordClient.edit_message (DiscordClient.init "http://api") ⟨200, none⟩ = .ok true :=
  C2_delete_succeeds_only_on_204.2 (DiscordClient.init "http://api") ⟨200, none⟩ rfl

/-- Claim C3, counterexample: the claim says a failed `connect` raises a
`ConnectionError` and other operations raise a `RequestError`, two error
kinds distinguishable by the caller.  In the code both raise the same
exception class `ValueError`: at status 404 the two failures have the same
kind, so there are no two distinguishable kinds. -/
theorem C3_counterexample_same_kind :
    (DiscordClient.connect (DiscordClient.init "http://api") ⟨404, none⟩).1
      = .error (.valueError ("Failed to connect to Discord: " ++ toString (404 : Nat)))
  ∧ DiscordClient.send_message (DiscordClient.init "http://api") ⟨404, none⟩
      = .error (.valueError ("Failed to send message: " ++ toString (404 : Nat)))
  ∧ PyErr.kind (.valueError ("Failed to connect to Discord: " ++ toString (404 : Nat)))
      = PyErr.kind (.valueError ("Failed to send message: " ++ toString (404 : Nat))) :=
  ⟨rfl, rfl, rfl⟩

/-- Claim C3, amended: every failure raises the single exception class
`ValueError`; a failed `connect` carries the message `"Failed to connect to
Discord: "` followed by the status code, and every other operation's failure
carries its own fixed operation-naming message followed by the status code.
The eleven messages are pairwise distinct at every status, so failures are
distinguishable by message text — but not by exception kind. -/
theorem C3_amended_valueerror_with_op_message :
    (∀ (c : DiscordClient) (r : Response), r.status ≠ 200 →
        (DiscordClient.connect c r).1
          = .error (.valueError ("Failed to connect to Discord: " ++ toString r.status))
      ∧ DiscordClient.send_message c r
          = .error (.valueError ("Failed to send message: " ++ toString r.status))
      ∧ DiscordClient.receive_message c r
          = .error (.valueError ("Failed to receive message: " ++ toString r.status))
      ∧ DiscordClient.edit_message c r
          = .error (.valueError ("Failed to edit message: " ++ toString r.status))
      ∧ DiscordClient.get_user_info c r
          = .error (.valueError ("Failed to get user info: " ++ toString r.status))
      ∧ DiscordClient.get_channel_info c r
          = .error (.valueError ("Failed to get channel info: " ++ toString r.status))
      ∧ fetch_channel_messages c r
          = .error (.valueError ("Failed to fetch channel messages: " ++ toString r.status))
      ∧ get_user_messages c r
          = .error (.valueError ("Failed to fetch user messages: " ++ toString r.status))
      ∧ get_user_friends c r
          = .error (.valueError ("Failed to fetch user friends: " ++ toString r.status)))
  ∧ (∀ (c : DiscordClient) (r : Response), r.status ≠ 204 →
      DiscordClient.delete_message c r
        = .error (.valueError ("Failed to delete message: " ++ toString r.status)))
  ∧ (∀ (c : DiscordClient) (r : Response), r.status ≠ 201 →
      create_channel c r
        = .error (.valueError ("Failed to create channel: " ++ toString r.status)))
  ∧ (∀ s : Nat, (opErrMsgs s).Nodup) := by
  refine ⟨fun c r h => ?_, fun c r h => ?_, fun c r h => ?_, opErrMsgs_nodup⟩
  · simp [DiscordClient.connect, DiscordClient.send_message,
      DiscordClient.receive_message, DiscordClient.edit_message,
      DiscordClient.get_user_info, DiscordClient.get_channel_info,
      fetch_channel_messages, get_user_messages, get_user_friends, h]
  · simp [DiscordClient.delete_message, h]
  · simp [create_channel, h]

/-- Witness for the amended C3 at status 404 (and 200 for delete). -/
theorem C3_amended_valueerror_with_op_message_witness :
    (DiscordClient.connect (DiscordClient.init "http://api") ⟨404, none⟩).1
      = .error (.valueError ("Failed to connect to Discord: " ++ toString (404 : Nat)))
  ∧ DiscordClient.delete_message (DiscordClient.init "http://api") ⟨200, none⟩
      = .error (.valueError ("Failed to delete message: " ++ toString (200 : Nat)))
  ∧ (opErrMsgs 404).Nodup :=
  ⟨(C3_amended_valueerror_with_op_message.1 (DiscordClient.init "http://api")
      ⟨404, none⟩ (by decide)).1,
   C3_amended_valueerror_with_op_message.2.1 (DiscordClient.init "http://api")
      ⟨200, none⟩ (by decide),
   C3_amended_valueerror_with_op_message.2.2.2 404⟩

/-- Claim C4: a 201 response whose body carries fields `id`, `name`, `type`
makes `create_channel` return a Channel whose `id`, `name`, `channel_type`
equal those fields exactly; any status other than 201 fails. -/
theorem C4_create_channel_field_mapping :
    (∀ (c : DiscordClient) (r : Response) (data i n t : Json),
        r.status = 201 → r.body = some data →
        data.getField "id" = .ok i → data.getField "name" = .ok n →
        data.getField "type" = .ok t →
        create_channel c r = .ok ⟨i, n, t⟩)
  ∧ (∀ (c : DiscordClient) (r : Response), r.status ≠ 201 →
      exceptOk (create_channel c r) = false) := by
  constructor
  · intro c r data i n t hs hb hid hname hty
    simp [create_channel, hs, Response.json, hb, decodeChannel, hid, hname, hty]
  · intro c r h
    simp [create_channel, exceptOk, h]

/-- Witness for C4: `201 {"id":"1","name":"general","type":"text"}` yields
`Channel{id:"1", name:"general", channel_type:"text"}`. -/
theorem C4_create_channel_field_mapping_witness :
    create_channel (DiscordClient.init "http://api")
        ⟨201, some (.obj [("id", .str "1"), ("name", .str "general"), ("type", .str "text")])⟩
      = .ok ⟨.str "1", .str "general", .str "text"⟩ :=
  C4_create_channel_field_mapping.1 (DiscordClient.init "http://api")
    ⟨201, some (.obj [("id", .str "1"), ("name", .str "general"), ("type", .str "text")])⟩
    (.obj [("id", .str "1"), ("name", .str "general"), ("type", .str "text")])
    (.str "1") (.str "general") (.str "text") rfl rfl rfl rfl rfl

/-- Inversion for `decodeMessage`: a successfully decoded Message draws every
field from the body, the author from the nested object's `username`. -/
theorem decodeMessage_ok_inv {data : Json} {m : Message}
    (h : decodeMessage data = .ok m) :
    data.getField "id" = .ok m.id
  ∧ data.getField "content" = .ok m.content
  ∧ ∃ a, data.getField "author" = .ok a ∧ a.getField "username" = .ok m.author := by
  cases hid : data.getField "id" with
  | error e => simp [decodeMessage, hid] at h
  | ok i =>
    cases hct : data.getField "content" with
    | error e => simp [decodeMessage, hid, hct] at h
    | ok ct =>
      cases ha : data.getField "author" with
      | error e => simp [decodeMessage, hid, hct, ha] at h
      | ok a =>
        cases hu : a.getField "username" with
        | error e => simp [decodeMessage, hid, hct, ha, hu] at h
        | ok u =>
          simp only [decodeMessage, hid, hct, ha, hu, Except.ok.injEq] at h
          subst h
          exact ⟨rfl, rfl, a, rfl, hu⟩

/-- Inversion for `decodeUser`: a successfully decoded User draws all four
fields from the body. -/
theorem decodeUser_ok_inv {data : Json} {u : User}
    (h : decodeUser data = .ok u) :
    data.getField "id" = .ok u.id
  ∧ data.getField "username" = .ok u.username
  ∧ data.getField "discriminator" = .ok u.discriminator
  ∧ data.getField "avatar" = .ok u.avatar := by
  cases hid : data.getField "id" with
  | error e => simp [decodeUser, hid] at h
  | ok i =>
    cases hun : data.getField "username" with
    | error e => simp [decodeUser, hid, hun] at h
    | ok un =>
      cases hd : data.getField "discriminator" with
      | error e => simp [decodeUser, hid, hun, hd] at h
      | ok d =>
        cases hav : data.getField "avatar" with
        | error e => simp [decodeUser, hid, hun, hd, hav] at h
        | ok av =>
          simp only [decodeUser, hid, hun, hd, hav, Except.ok.injEq] at h
          subst h
          exact ⟨rfl, rfl, rfl, rfl⟩

/-- Inversion for `decodeChannel`: a successfully decoded Channel draws all
three fields from the body. -/
theorem decodeChannel_ok_inv {data : Json} {ch : Channel}
    (h : decodeChannel data = .ok ch) :
    data.getField "id" = .ok ch.id
  ∧ data.getField "name" = .ok ch.name
  ∧ data.getField "type" = .ok ch.channel_type := by
  cases hid : data.getField "id" with
  | error e => simp [decodeChannel, hid] at h
  | ok i =>
    cases hn : data.getField "name" with
    | error e => simp [decodeChannel, hid, hn] at h
    | ok n =>
      cases ht : data.getField "type" with
      | error e => simp [decodeChannel, hid, hn, ht] at h
      | ok t =>
        simp only [decodeChannel, hid, hn, ht, Except.ok.injEq] at h
        subst h
        exact ⟨rfl, rfl, rfl⟩

/-- Claim C5: on a 200 response with a well-formed message body,
`receive_message` returns a Message whose `id` and `content` equal the
body's fields and whose `author` equals the nested author object's
`username`; the same per-element decoding is what `fetch_channel_messages`
and `get_user_messages` apply to each array element. -/
theorem C5_message_field_mapping :
    (∀ (c : DiscordClient) (r : Response) (data i ct a u : Json),
        r.status = 200 → r.body = some data →
        data.getField "id" = .ok i → data.getField "content" = .ok ct →
        data.getField "author" = .ok a → a.getField "username" = .ok u →
        DiscordClient.receive_message c r = .ok ⟨i, ct, u⟩)
  ∧ (∀ (data : Json) (m : Message), decodeMessage data = .ok m →
        data.getField "id" = .ok m.id
      ∧ data.getField "content" = .ok m.content
      ∧ ∃ a, data.getField "author" = .ok a ∧ a.getField "username" = .ok m.author)
  ∧ (∀ (c : DiscordClient) (r : Response) (xs : List Json),
        r.status = 200 → r.body = some (.arr xs) →
        fetch_channel_messages c r = listComp decodeMessage xs
      ∧ get_user_messages c r = listComp decodeMessage xs) := by
  refine ⟨?_, ?_, ?_⟩
  · intro c r data i ct a u hs hb hid hct ha hu
    simp [DiscordClient.receive_message, hs, Response.json, hb,
      decodeMessage, hid, hct, ha, hu]
  · intro data m h
    exact decodeMessage_ok_inv h
  · intro c r xs hs hb
    constructor
    · simp [fetch_channel_messages, hs, Response.json, hb, Json.toIter]
    · simp [get_user_messages, hs, Response.json, hb, Json.toIter]

/-- Witness for C5: a message body with `id` 5, `content` `"hi"` and author
`{"username":"alice"}` decodes to `Message{5, "hi", "alice"}`. -/
theorem C5_message_field_mapping_witness :
    DiscordClient.receive_message (DiscordClient.init "http://api")
        ⟨200, some (.obj [("id", .num 5), ("content", .str "hi"),
          ("author", .obj [("username", .str "alice")])])⟩
      = .ok ⟨.num 5, .str "hi", .str "alice"⟩ :=
  C5_message_field_mapping.1 (DiscordClient.init "http://api")
    ⟨200, some (.obj [("id", .num 5), ("content", .str "hi"),
      ("author", .obj [("username", .str "alice")])])⟩
    (.obj [("id", .num 5), ("content", .str "hi"),
      ("author", .obj [("username", .str "alice")])])
    (.num 5) (.str "hi") (.obj [("username", .str "alice")]) (.str "alice")
    rfl rfl rfl rfl rfl rfl

/-- Claim C6: a 200 response to `connect` whose body has field `url` makes
`connect` store exactly that value as the gateway URL. -/
theorem C6_connect_stores_gateway_url :
    ∀ (c : DiscordClient) (r : Response) (data u : Json),
      r.status = 200 → r.body = some data → data.getField "url" = .ok u →
      DiscordClient.connect c r = (.ok (), { c with gateway_url := some u })
      ∧ ((DiscordClient.connect c r).2).gateway_url = some u
      ∧ ((DiscordClient.connect c r).2).api_url = c.api_url := by
  intro c r data u hs hb hu
  have hc : DiscordClient.connect c r = (.ok (), { c with gateway_url := some u }) := by
    simp [DiscordClient.connect, hs, Response.json, hb, hu]
  exact ⟨hc, by rw [hc], by rw [hc]⟩

/-- Witness for C6: given `{"url":"wss://gateway.example"}`, the stored
gateway URL equals `"wss://gateway.example"` exactly. -/
theorem C6_connect_stores_gateway_url_witness :
    ((DiscordClient.connect (DiscordClient.init "http://api")
        ⟨200, some (.obj [("url", .str "wss://gateway.example")])⟩).2).gateway_url
      = some (.str "wss://gateway.example") :=
  (C6_connect_stores_gateway_url (DiscordClient.init "http://api")
    ⟨200, some (.obj [("url", .str "wss://gateway.example")])⟩
    (.obj [("url", .str "wss://gateway.example")])
    (.str "wss://gateway.example") rfl rfl rfl).2.1

/-- A successful list comprehension pairs inputs and outputs one to one, in
order: element i of the result is the decoding of element i of the input. -/
theorem listComp_ok_forall2 {α : Type} {f : Json → Except PyErr α} :
    ∀ {xs : List Json} {ys : List α}, listComp f xs = .ok ys →
      List.Forall₂ (fun x y => f x = .ok y) xs ys := by
  intro xs
  induction xs with
  | nil =>
    intro ys h
    simp only [listComp, Except.ok.injEq] at h
    subst h
    exact List.Forall₂.nil
  | cons x xs ih =>
    intro ys h
    cases hx : f x with
    | error e => simp [listComp, hx] at h
    | ok y =>
      cases hxs : listComp f xs with
      | error e => simp [listComp, hx, hxs] at h
      | ok ys2 =>
        simp only [listComp, hx, hxs, Except.ok.injEq] at h
        subst h
        exact List.Forall₂.cons hx (ih hxs)

/-- Claim C7: on a 200 response whose body is a JSON array, both list
operations decode one Message per element in the array's order, and the
empty array yields the empty list, not an error. -/
theorem C7_list_ops_empty_and_ordered :
    ∀ (c : DiscordClient) (r : Response) (xs : List Json),
      r.status = 200 → r.body = some (.arr xs) →
      fetch_channel_messages c r = listComp decodeMessage xs
    ∧ get_user_messages c r = listComp decodeMessage xs
    ∧ (xs = [] → fetch_channel_messages c r = .ok [] ∧ get_user_messages c r = .ok [])
    ∧ (∀ ms, fetch_channel_messages c r = .ok ms →
        List.Forall₂ (fun x m => decodeMessage x = .ok m) xs ms)
    ∧ (∀ ms, get_user_messages c r = .ok ms →
        List.Forall₂ (fun x m => decodeMessage x = .ok m) xs ms) := by
  intro c r xs hs hb
  have hf : fetch_channel_messages c r = listComp decodeMessage xs := by
    simp [fetch_channel_messages, hs, Response.json, hb, Json.toIter]
  have hg : get_user_messages c r = listComp decodeMessage xs := by
    simp [get_user_messages, hs, Response.json, hb, Json.toIter]
  refine ⟨hf, hg, ?_, ?_, ?_⟩
  · intro he
    subst he
    exact ⟨by simp [hf, listComp], by simp [hg, listComp]⟩
  · intro ms hms
    rw [hf] at hms
    exact listComp_ok_forall2 hms
  · intro ms hms
    rw [hg] at hms
    exact listComp_ok_forall2 hms

/-- Witness for C7: a 200 response with body `[]` yields the empty list from
both list operations. -/
theorem C7_list_ops_empty_and_ordered_witness :
    fetch_channel_messages (DiscordClient.init "http://api") ⟨200, some (.arr [])⟩ = .ok []
  ∧ get_user_messages (DiscordClient.init "http://api") ⟨200, some (.arr [])⟩ = .ok [] :=
  (C7_list_ops_empty_and_ordered (DiscordClient.init "http://api")
    ⟨200, some (.arr [])⟩ [] rfl rfl).2.2.1 rfl

/-- Every element of the right list of a `Forall₂` is related to some element
of the left list. -/
theorem forall2_mem_right {α β : Type} {R : α → β → Prop} :
    ∀ {xs : List α} {ys : List β}, List.Forall₂ R xs ys →
      ∀ y ∈ ys, ∃ x ∈ xs, R x y := by
  intro xs ys h
  induction h with
  | nil => intro y hy; cases hy
  | cons hR hrest ih =>
    intro y hy
    rcases List.mem_cons.mp hy with rfl | hy2
    · exact ⟨_, List.mem_cons_self _ _, hR⟩
    · obtain ⟨x, hx, hRx⟩ := ih y hy2
      exact ⟨x, List.mem_cons_of_mem _ hx, hRx⟩

/-- Claim C8: a record is only ever built from a fully decoded body — any
returned User, Message or Channel has every field drawn from the parsed
JSON; a body missing a required field, or an unparsable body, fails the
whole operation, so no half-populated record is ever returned. -/
theorem C8_decode_failure_fails_whole_op :
    (∀ (c : DiscordClient) (r : Response) (u : User),
        DiscordClient.get_user_info c r = .ok u →
        r.status = 200 ∧ ∃ data, r.body = some data
          ∧ data.getField "id" = .ok u.id
          ∧ data.getField "username" = .ok u.username
          ∧ data.getField "discriminator" = .ok u.discriminator
          ∧ data.getField "avatar" = .ok u.avatar)
  ∧ (∀ (c : DiscordClient) (r : Response) (m : Message),
        DiscordClient.receive_message c r = .ok m →
        r.status = 200 ∧ ∃ data, r.body = some data
          ∧ data.getField "id" = .ok m.id
          ∧ data.getField "content" = .ok m.content
          ∧ ∃ a, data.getField "author" = .ok a ∧ a.getField "username" = .ok m.author)
  ∧ (∀ (c : DiscordClient) (r : Response) (ch : Channel),
        DiscordClient.get_channel_info c r = .ok ch →
        r.status = 200 ∧ ∃ data, r.body = some data
          ∧ data.getField "id" = .ok ch.id
          ∧ data.getField "name" = .ok ch.name
          ∧ data.getField "type" = .ok ch.channel_type)
  ∧ (∀ (c : DiscordClient) (r : Response) (ch : Channel),
        create_channel c r = .ok ch →
        r.status = 201 ∧ ∃ data, r.body = some data
          ∧ data.getField "id" = .ok ch.id
          ∧ data.getField "name" = .ok ch.name
          ∧ data.getField "type" = .ok ch.channel_type)
  ∧ (∀ (c : DiscordClient) (r : Response) (us : List User),
        get_user_friends c r = .ok us →
        ∀ u ∈ us, ∃ j : Json,
            j.getField "id" = .ok u.id
          ∧ j.getField "username" = .ok u.username
          ∧ j.getField "discriminator" = .ok u.discriminator
          ∧ j.getField "avatar" = .ok u.avatar)
  ∧ (∀ (c : DiscordClient) (r : Response) (data : Json) (e : PyErr),
        r.status = 200 → r.body = some data →
        data.getField "avatar" = .error e →
        exceptOk (DiscordClient.get_user_info c r) = false)
  ∧ (∀ (c : DiscordClient) (r : Response) (data : Json) (e : PyErr),
        r.status = 200 → r.body = some data →
        data.getField "author" = .error e →
        exceptOk (DiscordClient.receive_message c r) = false)
  ∧ (∀ (c : DiscordClient) (r : Response), r.body = none →
        exceptOk (DiscordClient.receive_message c r) = false
      ∧ exceptOk (DiscordClient.get_user_info c r) = false
      ∧ exceptOk (DiscordClient.get_channel_info c r) = false
      ∧ exceptOk (fetch_channel_messages c r) = false
      ∧ exceptOk (get_user_messages c r) = false
      ∧ exceptOk (get_user_friends c r) = false
      ∧ exceptOk (create_channel c r) = false) := by
  have invU : ∀ (c : DiscordClient) (r : Response) (u : User),
      DiscordClient.get_user_info c r = .ok u →
      r.status = 200 ∧ ∃ data, r.body = some data ∧ decodeUser data = .ok u := by
    intro c r u h
    by_cases hs : r.status = 200
    · cases hb : r.body with
      | none => simp [DiscordClient.get_user_info, hs, Response.json, hb] at h
      | some data =>
        simp [DiscordClient.get_user_info, hs, Response.json, hb] at h
        exact ⟨hs, data, rfl, h⟩
    · simp [DiscordClient.get_user_info, hs] at h
  have invM : ∀ (c : DiscordClient) (r : Response) (m : Message),
      DiscordClient.receive_message c r = .ok m →
      r.status = 200 ∧ ∃ data, r.body = some data ∧ decodeMessage data = .ok m := by
    intro c r m h
    by_cases hs : r.status = 200
    · cases hb : r.body with
      | none => simp [DiscordClient.receive_message, hs, Response.json, hb] at h
      | some data =>
        simp [DiscordClient.receive_message, hs, Response.json, hb] at h
        exact ⟨hs, data, rfl, h⟩
    · simp [DiscordClient.receive_message, hs] at h
  have invC : ∀ (c : DiscordClient) (r : Response) (ch : Channel),
      DiscordClient.get_channel_info c r = .ok ch →
      r.status = 200 ∧ ∃ data, r.body = some data ∧ decodeChannel data = .ok ch := by
    intro c r ch h
    by_cases hs : r.status = 200
    · cases hb : r.body with
      | none => simp [DiscordClient.get_channel_info, hs, Response.json, hb] at h
      | some data =>
        simp [DiscordClient.get_channel_info, hs, Response.json, hb] at h
        exact ⟨hs, data, rfl, h⟩
    · simp [DiscordClient.get_channel_info, hs] at h
  have invCC : ∀ (c : DiscordClient) (r : Response) (ch : Channel),
      create_channel c r = .ok ch →
      r.status = 201 ∧ ∃ data, r.body = some data ∧ decodeChannel data = .ok ch := by
    intro c r ch h
    by_cases hs : r.status = 201
    · cases hb : r.body with
      | none => simp [create_channel, hs, Response.json, hb] at h
      | some data =>
        simp [create_channel, hs, Response.json, hb] at h
        exact ⟨hs, data, rfl, h⟩
    · simp [create_channel, hs] at h
  have invF : ∀ (c : DiscordClient) (r : Response) (us : List User),
      get_user_friends c r = .ok us →
      ∃ items, listComp decodeUser items = .ok us := by
    intro c r us h
    by_cases hs : r.status = 200
    · cases hb : r.body with
      | none => simp [get_user_friends, hs, Response.json, hb] at h
      | some data =>
        cases hti : data.toIter with
        | error e => simp [get_user_friends, hs, Response.json, hb, hti] at h
        | ok items =>
          simp [get_user_friends, hs, Response.json, hb, hti] at h
          exact ⟨items, h⟩
    · simp [get_user_friends, hs] at h
  refine ⟨?_, ?_, ?_, ?_, ?_, ?_, ?_, ?_⟩
  · intro c r u h
    obtain ⟨hs, data, hb, hd⟩ := invU c r u h
    obtain ⟨h1, h2, h3, h4⟩ := decodeUser_ok_inv hd
    exact ⟨hs, data, hb, h1, h2, h3, h4⟩
  · intro c r m h
    obtain ⟨hs, data, hb, hd⟩ := invM c r m h
    obtain ⟨h1, h2, h3⟩ := decodeMessage_ok_inv hd
    exact ⟨hs, data, hb, h1, h2, h3⟩
  · intro c r ch h
    obtain ⟨hs, data, hb, hd⟩ := invC c r ch h
    obtain ⟨h1, h2, h3⟩ := decodeChannel_ok_inv hd
    exact ⟨hs, data, hb, h1, h2, h3⟩
  · intro c r ch h
    obtain ⟨hs, data, hb, hd⟩ := invCC c r ch h
    obtain ⟨h1, h2, h3⟩ := decodeChannel_ok_inv hd
    exact ⟨hs, data, hb, h1, h2, h3⟩
  · intro c r us h u hu
    obtain ⟨items, hlc⟩ := invF c r us h
    obtain ⟨j, _, hdec⟩ := forall2_mem_right (listComp_ok_forall2 hlc) u hu
    obtain ⟨h1, h2, h3, h4⟩ := decodeUser_ok_inv hdec
    exact ⟨j, h1, h2, h3, h4⟩
  · intro c r data e hs hb hav
    cases hres : DiscordClient.get_user_info c r with
    | error e2 => simp [exceptOk, hres]
    | ok u =>
      exfalso
      obtain ⟨_, data2, hb2, hd⟩ := invU c r u hres
      rw [hb] at hb2
      injection hb2 with hde
      subst hde
      have h4 := (decodeUser_ok_inv hd).2.2.2
      rw [hav] at h4
      exact Except.noConfusion h4
  · intro c r data e hs hb hav
    cases hres : DiscordClient.receive_message c r with
    | error e2 => simp [exceptOk, hres]
    | ok m =>
      exfalso
      obtain ⟨_, data2, hb2, hd⟩ := invM c r m hres
      rw [hb] at hb2
      injection hb2 with hde
      subst hde
      obtain ⟨a, ha, _⟩ := (decodeMessage_ok_inv hd).2.2
      rw [hav] at ha
      exact Except.noConfusion ha
  · intro c r hb
    refine ⟨?_, ?_, ?_, ?_, ?_, ?_, ?_⟩
    · by_cases hs : r.status = 200 <;>
        simp [DiscordClient.receive_message, Response.json, hs, hb, exceptOk]
    · by_cases hs : r.status = 200 <;>
        simp [DiscordClient.get_user_info, Response.json, hs, hb, exceptOk]
    · by_cases hs : r.status = 200 <;>
        simp [DiscordClient.get_channel_info, Response.json, hs, hb, exceptOk]
    · by_cases hs : r.status = 200 <;>
        simp [fetch_channel_messages, Response.json, hs, hb, exceptOk]
    · by_cases hs : r.status = 200 <;>
        simp [get_user_messages, Response.json, hs, hb, exceptOk]
    · by_cases hs : r.status = 200 <;>
        simp [get_user_friends, Response.json, hs, hb, exceptOk]
    · by_cases hs : r.status = 201 <;>
        simp [create_channel, Response.json, hs, hb, exceptOk]

/-- Witness for C8: a User body lacking `avatar` and a message body lacking
the nested author both fail the operation, as does an unparsable body. -/
theorem C8_decode_failure_fails_whole_op_witness :
    exceptOk (DiscordClient.get_user_info (DiscordClient.init "http://api")
        ⟨200, some (.obj [("id", .num 1), ("username", .str "bob"),
          ("discriminator", .num 7)])⟩) = false
  ∧ exceptOk (DiscordClient.receive_message (DiscordClient.init "http://api")
        ⟨200, some (.obj [("id", .num 1), ("content", .str "hi")])⟩) = false
  ∧ exceptOk (fetch_channel_messages (DiscordClient.init "http://api")
        ⟨200, none⟩) = false :=
  ⟨C8_decode_failure_fails_whole_op.2.2.2.2.2.1 (DiscordClient.init "http://api")
      ⟨200, some (.obj [("id", .num 1), ("username", .str "bob"),
        ("discriminator", .num 7)])⟩
      (.obj [("id", .num 1), ("username", .str "bob"), ("discriminator", .num 7)])
      (.keyError "avatar") rfl rfl rfl,
   C8_decode_failure_fails_whole_op.2.2.2.2.2.2.1 (DiscordClient.init "http://api")
      ⟨200, some (.obj [("id", .num 1), ("content", .str "hi")])⟩
      (.obj [("id", .num 1), ("content", .str "hi")])
      (.keyError "author") rfl rfl rfl,
   (C8_decode_failure_fails_whole_op.2.2.2.2.2.2.2 (DiscordClient.init "http://api")
      ⟨200, none⟩ rfl).2.2.2.1⟩

/-- Appending to the same string on the left is cancellative. -/
theorem string_append_left_cancel {a t₁ t₂ : String} (h : a ++ t₁ = a ++ t₂) :
    t₁ = t₂ := by
  have hd : a.data ++ t₁.data = a.data ++ t₂.data := by
    simpa using congrArg String.data h
  have ht : t₁.data = t₂.data := List.append_cancel_left hd
  cases t₁
  cases t₂
  exact congrArg String.mk ht

/-- Claim C9: both list operations interpolate `limit` verbatim into the
request URL's `limit` query parameter, defaulting to 10 when omitted; no
clamping or sanitization happens, so out-of-range values such as `-5` or
`1000000` appear unchanged, and limits that print differently always yield
different URLs. -/
theorem C9_limit_passthrough :
    (∀ (client : DiscordClient) (channel_id : String) (l : Int),
        fetch_channel_messages_url client channel_id l
          = client.api_url ++ "/channels/" ++ channel_id ++ "/messages?limit="
              ++ toString l)
  ∧ (∀ (client : DiscordClient) (user_id : String) (l : Int),
        get_user_messages_url client user_id l
          = client.api_url ++ "/users/" ++ user_id ++ "/messages?limit="
              ++ toString l)
  ∧ (∀ (client : DiscordClient) (channel_id : String),
        fetch_channel_messages_url client channel_id
          = fetch_channel_messages_url client channel_id 10)
  ∧ (∀ (client : DiscordClient) (user_id : String),
        get_user_messages_url client user_id
          = get_user_messages_url client user_id 10)
  ∧ (∀ (client : DiscordClient) (channel_id : String) (l₁ l₂ : Int),
        toString l₁ ≠ toString l₂ →
        fetch_channel_messages_url client channel_id l₁
          ≠ fetch_channel_messages_url client channel_id l₂)
  ∧ fetch_channel_messages_url (DiscordClient.init "http://api") "c" (-5)
      = "http://api/channels/c/messages?limit=-5"
  ∧ get_user_messages_url (DiscordClient.init "http://api") "u" 1000000
      = "http://api/users/u/messages?limit=1000000" := by
  refine ⟨fun client cid l => rfl, fun client uid l => rfl,
    fun client cid => rfl, fun client uid => rfl, ?_, rfl, rfl⟩
  intro client cid l₁ l₂ hne heq
  exact hne (string_append_left_cancel heq)

/-- Witness for C9: limits 1 and 100 print differently, so their request
URLs differ — nothing is clamped into a common bound. -/
theorem C9_limit_passthrough_witness :
    fetch_channel_messages_url (DiscordClient.init "http://api") "c" 1
      ≠ fetch_channel_messages_url (DiscordClient.init "http://api") "c" 100 :=
  C9_limit_passthrough.2.2.2.2.1 (DiscordClient.init "http://api") "c" 1 100
    (by decide)

/-- Claim C10: a `connect` that receives a non-200 status leaves the client's
state unchanged — `gateway_url` is neither set nor modified (a never-connected
client still has none), `api_url` is untouched — and the call fails; any
state change at all implies the status was 200. -/
theorem C10_connect_failure_preserves_state :
    (∀ (c : DiscordClient) (r : Response), r.status ≠ 200 →
        (DiscordClient.connect c r).2 = c
      ∧ exceptOk (DiscordClient.connect c r).1 = false
      ∧ ((DiscordClient.connect c r).2).gateway_url = c.gateway_url
      ∧ ((DiscordClient.connect c r).2).api_url = c.api_url)
  ∧ (∀ (u : String) (r : Response), r.status ≠ 200 →
      ((DiscordClient.connect (DiscordClient.init u) r).2).gateway_url = none)
  ∧ (∀ (c : DiscordClient) (r : Response),
      (DiscordClient.connect c r).2 ≠ c → r.status = 200) := by
  have key : ∀ (c : DiscordClient) (r : Response), r.status ≠ 200 →
      DiscordClient.connect c r
        = (.error (.valueError ("Failed to connect to Discord: " ++ toString r.status)), c) := by
    intro c r h
    simp [DiscordClient.connect, h]
  refine ⟨fun c r h => ?_, fun u r h => ?_, fun c r h => ?_⟩
  · rw [key c r h]
    exact ⟨rfl, rfl, rfl, rfl⟩
  · rw [key (DiscordClient.init u) r h]
    rfl
  · by_contra hs
    exact h (congrArg Prod.snd (key c r hs))

/-- Witness for C10 at status 500 on a never-connected client. -/
theorem C10_connect_failure_preserves_state_witness :
    ((DiscordClient.connect (DiscordClient.init "http://api") ⟨500, none⟩).2).gateway_url
      = none
  ∧ (DiscordClient.connect (DiscordClient.init "http://api") ⟨500, none⟩).2
      = DiscordClient.init "http://api" :=
  ⟨C10_connect_failure_preserves_state.2.1 "http://api" ⟨500, none⟩ (by decide),
   (C10_connect_failure_preserves_state.1 (DiscordClient.init "http://api")
      ⟨500, none⟩ (by decide)).1⟩

end Luminary
